import Mathlib

/-!
Shallow embedding of the `simple-traces` example clients
(`src/examples/client.py`, `src/examples/python_otlp_client.py`,
`src/examples/otel-client.py`) and proofs about them.

The JSON client is modelled as a pure function from its arguments and the
outcome of its single HTTP POST to the value it returns (or the exception it
lets escape), the list of requests it issued and the lines it printed.
-/

/-- A JSON value as handled by the example client.  Decimal literals such as
`0.7` are carried exactly as mantissa and decimal exponent (`dec 7 1` is 0.7):
the client never computes with them, it only serialises them. -/
inductive JVal where
  | s : String → JVal
  | n : Int → JVal
  | dec : Int → Nat → JVal
  | obj : List (String × JVal) → JVal

/-- The URL constant `API_URL` of `client.py`. -/
def API_URL : String := "http://localhost:8080/api/traces"

/-- The arguments of one `create_trace` call.  `metadata` is `none` when the
optional parameter keeps its default `None`. -/
structure TraceArgs where
  model : String
  input_text : String
  output_text : String
  prompt_tokens : Int
  output_tokens : Int
  duration_ms : Int
  metadata : Option (List (String × JVal)) := none

/-- The outcome of the HTTP POST as seen by `create_trace`:
either the transport raises a `requests` exception (`netError`) or a response
arrives with a status code and a body.  A body of `none` stands for a body
that is not valid JSON (so `response.json()` raises). -/
inductive HttpResponse where
  | netError : String → HttpResponse
  | resp : Nat → Option JVal → HttpResponse

/-- One HTTP POST as issued by the client: target URL and JSON body. -/
structure PostRequest where
  url : String
  body : List (String × JVal)

/-- What one `create_trace` invocation does: the Python-level outcome
(`Except.error e` when an exception escapes the function, `Except.ok v` when
it returns `v`, with `none` standing for Python `None`), the POSTs it issued
and the lines it printed. -/
structure CallResult where
  result : Except String (Option JVal)
  requests : List PostRequest
  prints : List String

/-- The payload built by lines 25-35 of `client.py`: the six fixed keys, plus
`"metadata"` exactly when the `metadata` argument is truthy (a non-`None`,
non-empty dict), mirroring `if metadata:`. -/
def buildPayload (a : TraceArgs) : List (String × JVal) :=
  let base := [("model", JVal.s a.model), ("input", JVal.s a.input_text),
    ("output", JVal.s a.output_text), ("prompt_tokens", JVal.n a.prompt_tokens),
    ("output_tokens", JVal.n a.output_tokens), ("duration", JVal.n a.duration_ms)]
  match a.metadata with
  | some m => if m.isEmpty then base else base ++ [("metadata", JVal.obj m)]
  | none => base

/-- Python `str` as applied to the `id` field when it is printed. -/
def pyStr : JVal → String
  | JVal.s v => v
  | JVal.n v => toString v
  | JVal.dec m e => toString m ++ "/10^" ++ toString e
  | JVal.obj _ => "<object>"

/-- `create_trace` of `client.py`.  It builds the payload, issues exactly one
POST, calls `raise_for_status` (which raises `HTTPError` for status codes in
400..599), parses the JSON body (`response.json()` raises the `requests`
JSON-decode error, a `RequestException`, on a non-JSON body), prints the `id`
field and returns the parsed object.  `except requests.exceptions.RequestException`
catches the transport error, the `HTTPError` and the JSON-decode error, prints
an error line and returns `None`; a `KeyError` from `result["id"]` or a
`TypeError` from indexing a non-dict is not caught. -/
def create_trace (a : TraceArgs) (net : HttpResponse) : CallResult :=
  let req : PostRequest := ⟨API_URL, buildPayload a⟩
  match net with
  | HttpResponse.netError msg =>
    ⟨Except.ok none, [req], ["✗ Error creating trace: " ++ msg]⟩
  | HttpResponse.resp status body =>
    if 400 ≤ status ∧ status < 600 then
      ⟨Except.ok none, [req],
        ["✗ Error creating trace: " ++ ("HTTP status " ++ toString status)]⟩
    else
      match body with
      | none =>
        ⟨Except.ok none, [req], ["✗ Error creating trace: invalid JSON body"]⟩
      | some j =>
        match j with
        | JVal.obj fields =>
          match List.lookup "id" fields with
          | some idv =>
            ⟨Except.ok (some j), [req], ["✓ Trace created: " ++ pyStr idv]⟩
          | none => ⟨Except.error "KeyError: id", [req], []⟩
        | _ => ⟨Except.error "TypeError: response is not a dict", [req], []⟩

/-- Does this POST outcome make `requests` raise a `RequestException` in the
sense of claim C1: a transport failure, or a non-2xx status surfaced by
`raise_for_status`? -/
def raisesRequestException : HttpResponse → Bool
  | HttpResponse.netError _ => true
  | HttpResponse.resp status _ => decide (400 ≤ status ∧ status < 600)

/-- Does this POST outcome let `create_trace` run to a normal `return`
(rather than escape with an uncaught exception)?  True for every caught
failure and for every success whose JSON object carries an `id`. -/
def completesNormally : HttpResponse → Bool
  | HttpResponse.netError _ => true
  | HttpResponse.resp status body =>
    if 400 ≤ status ∧ status < 600 then true
    else match body with
      | none => true
      | some (JVal.obj fields) => (List.lookup "id" fields).isSome
      | some _ => false

section Lemmas

/-- Every invocation issues exactly the one POST with the built payload. -/
theorem create_trace_requests_eq (a : TraceArgs) (net : HttpResponse) :
    (create_trace a net).requests = [⟨API_URL, buildPayload a⟩] := by
  cases net with
  | netError msg => rfl
  | resp status body =>
    simp only [create_trace]
    split
    · rfl
    · cases body with
      | none => rfl
      | some j =>
        cases j with
        | obj fields =>
          simp only
          cases List.lookup "id" fields <;> rfl
        | s v => rfl
        | n v => rfl
        | dec m e => rfl

/-- The outcome (return value or escaping exception) of `create_trace`
depends only on the POST outcome, not on the arguments. -/
theorem create_trace_result_args_independent (a a' : TraceArgs)
    (net : HttpResponse) :
    (create_trace a net).result = (create_trace a' net).result := by
  cases net with
  | netError msg => rfl
  | resp status body =>
    simp only [create_trace]
    split
    · rfl
    · cases body with
      | none => rfl
      | some j =>
        cases j with
        | obj fields =>
          simp only
          cases List.lookup "id" fields <;> rfl
        | s v => rfl
        | n v => rfl
        | dec m e => rfl

/-- The printed lines also depend only on the POST outcome. -/
theorem create_trace_prints_args_independent (a a' : TraceArgs)
    (net : HttpResponse) :
    (create_trace a net).prints = (create_trace a' net).prints := by
  cases net with
  | netError msg => rfl
  | resp status body =>
    simp only [create_trace]
    split
    · rfl
    · cases body with
      | none => rfl
      | some j =>
        cases j with
        | obj fields =>
          simp only
          cases List.lookup "id" fields <;> rfl
        | s v => rfl
        | n v => rfl
        | dec m e => rfl

/-- When the POST outcome lets the call complete, the result is a normal
return. -/
theorem create_trace_ok_of_completes (a : TraceArgs) (net : HttpResponse)
    (h : completesNormally net = true) :
    ∃ v, (create_trace a net).result = Except.ok v := by
  cases net with
  | netError msg => exact ⟨none, rfl⟩
  | resp status body =>
    by_cases hst : 400 ≤ status ∧ status < 600
    · exact ⟨none, by simp [create_trace, hst]⟩
    · cases body with
      | none => exact ⟨none, by simp [create_trace, hst]⟩
      | some j =>
        cases j with
        | obj fields =>
          simp only [completesNormally, if_neg hst] at h
          cases hid : List.lookup "id" fields with
          | none => rw [hid] at h; simp at h
          | some idv =>
            exact ⟨some (JVal.obj fields), by simp [create_trace, hst, hid]⟩
        | s v => simp [completesNormally, hst] at h
        | n v => simp [completesNormally, hst] at h
        | dec m e => simp [completesNormally, hst] at h

end Lemmas

/-! Concrete inputs used by witnesses and counterexamples. -/

/-- The arguments of the first `create_trace` call in `main` of `client.py`. -/
def exArgs : TraceArgs :=
  { model := "gpt-4", input_text := "What is machine learning?",
    output_text := "Machine learning is a subset of artificial intelligence...",
    prompt_tokens := 15, output_tokens := 45, duration_ms := 1200 }

/-- A 2xx response whose JSON object has no `id` key. -/
def respNoId : HttpResponse :=
  HttpResponse.resp 200 (some (JVal.obj [("status", JVal.s "ok")]))

/-- A 2xx response whose JSON object carries `id` and another field. -/
def respWithId : HttpResponse :=
  HttpResponse.resp 200
    (some (JVal.obj [("id", JVal.s "abc123"), ("model", JVal.s "gpt-4")]))

/-- C1: whenever the POST raises a `requests` `RequestException` (transport
failure, or a non-2xx status surfaced by `raise_for_status`), `create_trace`
catches it, prints one error line and returns `None`; the exception does not
propagate. -/
theorem create_trace_catches_request_exception (a : TraceArgs)
    (net : HttpResponse) (h : raisesRequestException net = true) :
    (create_trace a net).result = Except.ok none ∧
    ∃ msg, (create_trace a net).prints = ["✗ Error creating trace: " ++ msg] := by
  cases net with
  | netError m => exact ⟨rfl, m, rfl⟩
  | resp status body =>
    simp only [raisesRequestException, decide_eq_true_eq] at h
    exact ⟨by simp [create_trace, h],
      "HTTP status " ++ toString status, by simp [create_trace, h]⟩

/-- Witness for C1 at a concrete transport failure. -/
theorem create_trace_catches_request_exception_witness :
    (create_trace exArgs (HttpResponse.netError "connection refused")).result
        = Except.ok none ∧
    ∃ msg, (create_trace exArgs (HttpResponse.netError "connection refused")).prints
        = ["✗ Error creating trace: " ++ msg] :=
  create_trace_catches_request_exception exArgs
    (HttpResponse.netError "connection refused") rfl

/-- C2 counterexample: on a 2xx response whose JSON object has no `id` key,
`create_trace` does NOT handle the failure like the caught ones — a `KeyError`
escapes the function (only `RequestException` is caught), nothing is printed
and `None` is not returned. -/
theorem create_trace_missing_id_cex :
    (create_trace exArgs respNoId).result = Except.error "KeyError: id" ∧
    (create_trace exArgs respNoId).prints = [] ∧
    (create_trace exArgs respNoId).result ≠ Except.ok none := by
  refine ⟨rfl, rfl, ?_⟩
  intro hcontra
  rw [show (create_trace exArgs respNoId).result = Except.error "KeyError: id"
    from rfl] at hcontra
  exact Except.noConfusion hcontra

/-- C2 amended: a 2xx response whose JSON body is an object without an `id`
key makes `create_trace` raise an uncaught `KeyError` at `result["id"]`
(after the one POST, with nothing printed); it is not converted to a `None`
return the way `RequestException` failures are. -/
theorem create_trace_missing_id_raises (a : TraceArgs) (status : Nat)
    (fields : List (String × JVal))
    (h2xx : 200 ≤ status ∧ status < 300)
    (hid : List.lookup "id" fields = none) :
    create_trace a (HttpResponse.resp status (some (JVal.obj fields))) =
      ⟨Except.error "KeyError: id", [⟨API_URL, buildPayload a⟩], []⟩ := by
  have hst : ¬(400 ≤ status ∧ status < 600) := by
    rintro ⟨h1, h2⟩; omega
  simp [create_trace, hst, hid]

/-- Witness for the amended C2 at a concrete 200 response without `id`. -/
theorem create_trace_missing_id_raises_witness :
    create_trace exArgs (HttpResponse.resp 200 (some (JVal.obj
        [("status", JVal.s "ok")]))) =
      ⟨Except.error "KeyError: id", [⟨API_URL, buildPayload exArgs⟩], []⟩ :=
  create_trace_missing_id_raises exArgs 200 [("status", JVal.s "ok")]
    (by omega) rfl

/-- C3 counterexample: on a successful response carrying an `id`, the value
returned to the caller is the whole parsed JSON object, NOT the `id` value:
the claim that the `id` is what is returned fails at this input (the `id` is
only printed). -/
theorem create_trace_returns_object_cex :
    (create_trace exArgs respWithId).result
        = Except.ok (some (JVal.obj
            [("id", JVal.s "abc123"), ("model", JVal.s "gpt-4")])) ∧
    (create_trace exArgs respWithId).result
        ≠ Except.ok (some (JVal.s "abc123")) ∧
    (create_trace exArgs respWithId).prints = ["✓ Trace created: abc123"] := by
  refine ⟨rfl, ?_, rfl⟩
  intro hcontra
  rw [show (create_trace exArgs respWithId).result
      = Except.ok (some (JVal.obj
          [("id", JVal.s "abc123"), ("model", JVal.s "gpt-4")])) from rfl] at hcontra
  simp at hcontra

/-- C3 amended: on a 2xx response whose JSON object carries an `id` field,
`create_trace` returns the full parsed JSON object (which contains the `id`)
to the caller, and prints the `id` value to the operator. -/
theorem create_trace_success_returns_object (a : TraceArgs) (status : Nat)
    (fields : List (String × JVal)) (idv : JVal)
    (h2xx : 200 ≤ status ∧ status < 300)
    (hid : List.lookup "id" fields = some idv) :
    (create_trace a (HttpResponse.resp status (some (JVal.obj fields)))).result
        = Except.ok (some (JVal.obj fields)) ∧
    (create_trace a (HttpResponse.resp status (some (JVal.obj fields)))).prints
        = ["✓ Trace created: " ++ pyStr idv] := by
  have hst : ¬(400 ≤ status ∧ status < 600) := by
    rintro ⟨h1, h2⟩; omega
  constructor <;> simp [create_trace, hst, hid]

/-- Witness for the amended C3 at a concrete 200 response with an `id`. -/
theorem create_trace_success_returns_object_witness :
    (create_trace exArgs (HttpResponse.resp 200 (some (JVal.obj
        [("id", JVal.s "abc123"), ("model", JVal.s "gpt-4")])))).result
        = Except.ok (some (JVal.obj
            [("id", JVal.s "abc123"), ("model", JVal.s "gpt-4")])) ∧
    (create_trace exArgs (HttpResponse.resp 200 (some (JVal.obj
        [("id", JVal.s "abc123"), ("model", JVal.s "gpt-4")])))).prints
        = ["✓ Trace created: " ++ pyStr (JVal.s "abc123")] :=
  create_trace_success_returns_object exArgs 200
    [("id", JVal.s "abc123"), ("model", JVal.s "gpt-4")] (JVal.s "abc123")
    (by omega) rfl

/-- C4: every invocation sends exactly one request whose body has exactly the
keys `model`, `input`, `output`, `prompt_tokens`, `output_tokens`, `duration`
bound to the corresponding arguments (`duration_ms` travels under the key
`duration`), plus a `metadata` key bound to the metadata argument when one is
provided (a truthy dict, matching `if metadata:` and claim C9). -/
theorem create_trace_request_body (a : TraceArgs) (net : HttpResponse) :
    (create_trace a net).requests = [⟨API_URL, buildPayload a⟩] ∧
    (a.metadata = none →
      buildPayload a =
        [("model", JVal.s a.model), ("input", JVal.s a.input_text),
         ("output", JVal.s a.output_text),
         ("prompt_tokens", JVal.n a.prompt_tokens),
         ("output_tokens", JVal.n a.output_tokens),
         ("duration", JVal.n a.duration_ms)]) ∧
    (∀ m, a.metadata = some m → m ≠ [] →
      buildPayload a =
        [("model", JVal.s a.model), ("input", JVal.s a.input_text),
         ("output", JVal.s a.output_text),
         ("prompt_tokens", JVal.n a.prompt_tokens),
         ("output_tokens", JVal.n a.output_tokens),
         ("duration", JVal.n a.duration_ms),
         ("metadata", JVal.obj m)]) := by
  refine ⟨create_trace_requests_eq a net, ?_, ?_⟩
  · intro hmeta
    simp [buildPayload, hmeta]
  · intro m hmeta hne
    cases m with
    | nil => exact absurd rfl hne
    | cons x xs => simp [buildPayload, hmeta]

/-- Witness for C4 at the metadata-bearing second call of `main`. -/
theorem create_trace_request_body_witness :
    (create_trace
      { model := "claude-3-opus",
        input_text := "Explain quantum computing in simple terms",
        output_text := "Quantum computing uses quantum mechanics principles...",
        prompt_tokens := 20, output_tokens := 60, duration_ms := 1500,
        metadata := some [("user_id", JVal.s "user_12345"),
          ("session_id", JVal.s "session_abc"),
          ("temperature", JVal.dec 7 1), ("max_tokens", JVal.n 100)] }
      (HttpResponse.netError "connection refused")).requests
      = [⟨API_URL, buildPayload
        { model := "claude-3-opus",
          input_text := "Explain quantum computing in simple terms",
          output_text := "Quantum computing uses quantum mechanics principles...",
          prompt_tokens := 20, output_tokens := 60, duration_ms := 1500,
          metadata := some [("user_id", JVal.s "user_12345"),
            ("session_id", JVal.s "session_abc"),
            ("temperature", JVal.dec 7 1), ("max_tokens", JVal.n 100)] }⟩] :=
  (create_trace_request_body
    { model := "claude-3-opus",
      input_text := "Explain quantum computing in simple terms",
      output_text := "Quantum computing uses quantum mechanics principles...",
      prompt_tokens := 20, output_tokens := 60, duration_ms := 1500,
      metadata := some [("user_id", JVal.s "user_12345"),
        ("session_id", JVal.s "session_abc"),
        ("temperature", JVal.dec 7 1), ("max_tokens", JVal.n 100)] }
    (HttpResponse.netError "connection refused")).1

/-- C7: `create_trace` enforces no local constraints: for every argument
values — negative token counts included, since `prompt_tokens` and
`output_tokens` range over all of `Int` — the call is not rejected, the one
POST with the built payload is issued, and the outcome and the printed lines
are exactly those produced for any other argument values under the same POST
outcome. -/
theorem create_trace_no_local_validation (a a' : TraceArgs)
    (net : HttpResponse) :
    (create_trace a net).requests = [⟨API_URL, buildPayload a⟩] ∧
    (create_trace a net).result = (create_trace a' net).result ∧
    (create_trace a net).prints = (create_trace a' net).prints :=
  ⟨create_trace_requests_eq a net,
   create_trace_result_args_independent a a' net,
   create_trace_prints_args_independent a a' net⟩

/-- C8: every invocation of `create_trace` performs exactly one network call,
whatever the POST outcome — no retry, no batching, no queueing. -/
theorem create_trace_single_network_call (a : TraceArgs)
    (net : HttpResponse) :
    (create_trace a net).requests.length = 1 ∧
    (create_trace a net).requests = [⟨API_URL, buildPayload a⟩] :=
  ⟨by rw [create_trace_requests_eq]; rfl, create_trace_requests_eq a net⟩

/-- C9: a provided but falsy metadata argument (the empty dict) is omitted
from the request body exactly as when metadata is `None`: the body is the
same and carries no `metadata` key. -/
theorem create_trace_falsy_metadata_omitted (a : TraceArgs)
    (net : HttpResponse) (h : a.metadata = some []) :
    buildPayload a = buildPayload { a with metadata := none } ∧
    "metadata" ∉ (buildPayload a).map Prod.fst ∧
    (create_trace a net).requests
      = [⟨API_URL, buildPayload { a with metadata := none }⟩] := by
  have hb : buildPayload a = buildPayload { a with metadata := none } := by
    simp [buildPayload, h]
  refine ⟨hb, ?_, by rw [create_trace_requests_eq, hb]⟩
  rw [hb]
  simp [buildPayload]

/-- Witness for C9 at a concrete call with an empty metadata dict. -/
theorem create_trace_falsy_metadata_omitted_witness :
    buildPayload { exArgs with metadata := some [] }
      = buildPayload { { exArgs with metadata := some [] } with
          metadata := none } ∧
    "metadata" ∉ (buildPayload { exArgs with metadata := some [] }).map Prod.fst ∧
    (create_trace { exArgs with metadata := some [] }
        (HttpResponse.netError "connection refused")).requests
      = [⟨API_URL, buildPayload { { exArgs with metadata := some [] } with
          metadata := none }⟩] :=
  create_trace_falsy_metadata_omitted { exArgs with metadata := some [] }
    (HttpResponse.netError "connection refused") rfl

/-!
Embedding of the two OTel example scripts.

`python_otlp_client.py` reads `os.getenv("OTLP_ENDPOINT", default)` and hands
the result to its span exporter; any exception raised by the example body
propagates out of `main` (only the final `shutdown()` call sits in a
`try/except` that prints a warning and continues).  `otel-client.py` uses the
module constant `OTLP_ENDPOINT` (never the environment) and wraps its whole
run in `try/except Exception` that prints a traceback and calls `exit(1)`.
-/

/-- The default OTLP target shared by both scripts. -/
def defaultOtlpTarget : String := "http://localhost:8080/v1/traces"

/-- The exporter endpoint of `python_otlp_client.py`, line 27:
`os.getenv("OTLP_ENDPOINT", "http://localhost:8080/v1/traces")`.
`env` is the process environment. -/
def python_otlp_exporter_endpoint (env : String → Option String) : String :=
  (env "OTLP_ENDPOINT").getD defaultOtlpTarget

/-- The module constant `OTLP_ENDPOINT` of `otel-client.py`, line 16. -/
def OTLP_ENDPOINT : String := "http://localhost:8080/v1/traces"

/-- The exporter endpoint of `otel-client.py`: `init_tracer` passes the
module constant `OTLP_ENDPOINT` to `OTLPSpanExporter`; the environment is
never consulted, so the function ignores `env`. -/
def otel_client_exporter_endpoint (_env : String → Option String) : String :=
  OTLP_ENDPOINT

/-- How a script terminates. -/
inductive ScriptOutcome where
  | success : ScriptOutcome
  | handled : Bool → Nat → ScriptOutcome
  | unhandled : String → ScriptOutcome

/-- Where, if anywhere, an exception arises during an OTel example run. -/
inductive RunFault where
  | noFault : RunFault
  | bodyRaises : String → RunFault
  | shutdownRaises : String → RunFault

/-- `main` of `otel-client.py` (lines 160-180): the whole run sits inside
`try/except Exception`, whose handler prints the error, prints a traceback
and calls `exit(1)`; `otel-client.py` has no shutdown call, so a shutdown
fault cannot arise and the constructor is mapped to the body case. -/
def otel_client_main : RunFault → ScriptOutcome
  | RunFault.noFault => ScriptOutcome.success
  | RunFault.bodyRaises _ => ScriptOutcome.handled true 1
  | RunFault.shutdownRaises _ => ScriptOutcome.handled true 1

/-- `main` of `python_otlp_client.py` (lines 25-108): no handler encloses the
example body, so an exception there propagates out of `main` unhandled; only
`trace.get_tracer_provider().shutdown()` is inside a `try/except Exception`,
whose handler prints a warning and lets the script continue to its final
success prints. -/
def python_otlp_main : RunFault → ScriptOutcome
  | RunFault.noFault => ScriptOutcome.success
  | RunFault.bodyRaises e => ScriptOutcome.unhandled e
  | RunFault.shutdownRaises _ => ScriptOutcome.success

/-- C5 counterexample: with `OTLP_ENDPOINT` set in the environment,
`python_otlp_client.py` uses the override but `otel-client.py` still targets
the hardcoded default — the environment variable does NOT override the target
in both OTel scripts. -/
theorem otlp_endpoint_not_both_cex :
    python_otlp_exporter_endpoint
        (fun k => if k = "OTLP_ENDPOINT"
          then some "http://collector.example:4318/v1/traces" else none)
      = "http://collector.example:4318/v1/traces" ∧
    otel_client_exporter_endpoint
        (fun k => if k = "OTLP_ENDPOINT"
          then some "http://collector.example:4318/v1/traces" else none)
      ≠ "http://collector.example:4318/v1/traces" ∧
    otel_client_exporter_endpoint
        (fun k => if k = "OTLP_ENDPOINT"
          then some "http://collector.example:4318/v1/traces" else none)
      = defaultOtlpTarget := by
  refine ⟨rfl, ?_, rfl⟩
  intro hcontra
  exact absurd hcontra (by decide)

/-- C5 amended: `OTLP_ENDPOINT` overrides the default OTLP target only in
`python_otlp_client.py` (which falls back to the default when the variable is
unset); `otel-client.py` always uses the hardcoded default, whatever the
environment holds. -/
theorem otlp_endpoint_override_amended (env : String → Option String)
    (v : String) (hset : env "OTLP_ENDPOINT" = some v) :
    python_otlp_exporter_endpoint env = v ∧
    (∀ env2 : String → Option String,
      python_otlp_exporter_endpoint (fun _ => none) = defaultOtlpTarget ∧
      otel_client_exporter_endpoint env2 = defaultOtlpTarget) := by
  refine ⟨?_, fun env2 => ⟨rfl, rfl⟩⟩
  simp [python_otlp_exporter_endpoint, hset]

/-- Witness for the amended C5 at a concrete environment. -/
theorem otlp_endpoint_override_amended_witness :
    python_otlp_exporter_endpoint
        (fun k => if k = "OTLP_ENDPOINT"
          then some "http://collector.example:4318/v1/traces" else none)
      = "http://collector.example:4318/v1/traces" ∧
    (∀ env2 : String → Option String,
      python_otlp_exporter_endpoint (fun _ => none) = defaultOtlpTarget ∧
      otel_client_exporter_endpoint env2 = defaultOtlpTarget) :=
  otlp_endpoint_override_amended
    (fun k => if k = "OTLP_ENDPOINT"
      then some "http://collector.example:4318/v1/traces" else none)
    "http://collector.example:4318/v1/traces" rfl

/-- C6 counterexample: an exception raised in the example body of
`python_otlp_client.py` is NOT caught by any script-level handler — the run
ends unhandled, not with a printed traceback and exit status 1, so the claim
that both OTel scripts wrap the full run in a catch-all fails. -/
theorem python_otlp_no_catch_all_cex :
    python_otlp_main (RunFault.bodyRaises "exporter import failure")
      = ScriptOutcome.unhandled "exporter import failure" ∧
    python_otlp_main (RunFault.bodyRaises "exporter import failure")
      ≠ ScriptOutcome.handled true 1 := by
  refine ⟨rfl, ?_⟩
  intro hcontra
  exact ScriptOutcome.noConfusion hcontra

/-- C6 amended: only `otel-client.py` wraps its full run in a catch-all that
prints a traceback and exits with status 1; in `python_otlp_client.py` an
exception in the example body propagates unhandled, and only a shutdown
failure is caught (with a warning, the run then finishing as a success). -/
theorem otel_catch_all_amended (e : String) :
    otel_client_main (RunFault.bodyRaises e) = ScriptOutcome.handled true 1 ∧
    otel_client_main RunFault.noFault = ScriptOutcome.success ∧
    python_otlp_main (RunFault.bodyRaises e) = ScriptOutcome.unhandled e ∧
    python_otlp_main (RunFault.shutdownRaises e) = ScriptOutcome.success :=
  ⟨rfl, rfl, rfl, rfl⟩

/-!
Embedding of `main` of `client.py` (lines 47-87): five `create_trace` calls
in a fixed order — the simple trace, the metadata trace, then one call per
model of `["gpt-3.5-turbo", "gpt-4", "claude-3-sonnet"]`.  The network is a
function from the call index to the outcome of that POST; execution is
sequential and stops early only when a call lets an exception escape.
-/

/-- The loop body arguments of example 3 of `main` for one model name. -/
def loopArgs (model : String) : TraceArgs :=
  { model := model,
    input_text := "Test prompt for " ++ model,
    output_text := "Test response from " ++ model,
    prompt_tokens := 10, output_tokens := 25, duration_ms := 800 }

/-- The five calls of `main`, in source order. -/
def mainCalls : List TraceArgs :=
  [exArgs,
   { model := "claude-3-opus",
     input_text := "Explain quantum computing in simple terms",
     output_text := "Quantum computing uses quantum mechanics principles...",
     prompt_tokens := 20, output_tokens := 60, duration_ms := 1500,
     metadata := some [("user_id", JVal.s "user_12345"),
       ("session_id", JVal.s "session_abc"),
       ("temperature", JVal.dec 7 1), ("max_tokens", JVal.n 100)] },
   loopArgs "gpt-3.5-turbo", loopArgs "gpt-4", loopArgs "claude-3-sonnet"]

/-- Run a list of `create_trace` calls sequentially against `net` (the POST
outcome of call number `i`), collecting the issued POSTs; an uncaught
exception (`Except.error`) aborts the remaining calls, exactly as it would
abort Python's `main`. -/
def runCalls (net : Nat → HttpResponse) :
    List TraceArgs → Nat → List PostRequest × Option String
  | [], _ => ([], none)
  | a :: rest, i =>
    let r := create_trace a (net i)
    match r.result with
    | Except.error e => (r.requests, some e)
    | Except.ok _ =>
      let tail := runCalls net rest (i + 1)
      (r.requests ++ tail.1, tail.2)

/-- `main` of `client.py`: the five calls, first call at index 0. -/
def client_main (net : Nat → HttpResponse) : List PostRequest × Option String :=
  runCalls net mainCalls 0

/-- Under an all-completing network (every outcome is either a caught
`RequestException` failure or a success carrying an `id`), `runCalls`
attempts every call in order, one POST each, and aborts nothing. -/
theorem runCalls_all_attempted (net : Nat → HttpResponse)
    (l : List TraceArgs) (i : Nat)
    (h : ∀ j, completesNormally (net j) = true) :
    runCalls net l i = (l.map (fun a => ⟨API_URL, buildPayload a⟩), none) := by
  induction l generalizing i with
  | nil => rfl
  | cons a rest ih =>
    obtain ⟨v, hv⟩ := create_trace_ok_of_completes a (net i) (h i)
    simp only [runCalls, hv, ih (i + 1), create_trace_requests_eq, List.map]
    rfl

/-- C10: a failed submission does not abort the run — when every POST outcome
is a caught failure or a success with an `id` (in particular when all five
fail with `RequestException`), `main` attempts all five `create_trace` calls
in their fixed order, issuing exactly the five POSTs with the five payloads,
with no exception escaping. -/
theorem client_main_attempts_all_five (net : Nat → HttpResponse)
    (h : ∀ j, completesNormally (net j) = true) :
    (client_main net).1
        = mainCalls.map (fun a => ⟨API_URL, buildPayload a⟩) ∧
    (client_main net).2 = none ∧
    (client_main net).1.length = 5 := by
  have hrun := runCalls_all_attempted net mainCalls 0 h
  unfold client_main
  rw [hrun]
  refine ⟨rfl, rfl, rfl⟩

/-- Witness for C10: a network on which every POST fails with a transport
error still sees all five calls attempted. -/
theorem client_main_attempts_all_five_witness :
    (client_main (fun _ => HttpResponse.netError "connection refused")).1
        = mainCalls.map (fun a => ⟨API_URL, buildPayload a⟩) ∧
    (client_main (fun _ => HttpResponse.netError "connection refused")).2
        = none ∧
    (client_main (fun _ => HttpResponse.netError "connection refused")).1.length
        = 5 :=
  client_main_attempts_all_five
    (fun _ => HttpResponse.netError "connection refused") (fun _ => rfl)
